import Mathlib

/-!
Verification of the NTP packet codec and query exchange of `ntpdate`
(source files `src/ntp.rs` and `src/main.rs`).

Machine integers are modelled as `Nat` (u8, u16, u32) and `Int` (i8), with
explicit `% 2^w` wrapping where the Rust types wrap by construction.  Byte
buffers (`bytes::Buf` / `bytes::BufMut` cursors) are modelled as `List Nat`
of byte values: a reader consumes bytes from the front of the list and
returns the value together with the remaining list, mirroring the shared
advancing cursor of the source; a writer produces the list of bytes it
appends.  Fallible conversions (`TryFrom`, returning `anyhow::Error`)
become `Except String`, carrying the exact error message of the source;
a `.unwrap()` on such a value becomes an `Option`, where `none` models the
panic branch.
-/

namespace Ntpdate

/-- `Leap` enum of `src/ntp.rs` (leap indicator, 2 bits on the wire). -/
inductive Leap where
  | noWarning
  | addSecond
  | delSecond
  | notInSync
deriving DecidableEq, Repr, Fintype

/-- `impl TryFrom<u8> for Leap` (`src/ntp.rs` lines 56-68): values 0-3 map
to the variants, anything else is an error with the source's message. -/
def Leap.try_from (value : Nat) : Except String Leap :=
  match value with
  | 0 => Except.ok Leap.noWarning
  | 1 => Except.ok Leap.addSecond
  | 2 => Except.ok Leap.delSecond
  | 3 => Except.ok Leap.notInSync
  | _ => Except.error ("illegal leap indicator value `" ++ toString value ++ "`")

/-- `impl From<Leap> for u8` (`src/ntp.rs` lines 70-79). -/
def Leap.to_u8 : Leap → Nat
  | Leap.noWarning => 0
  | Leap.addSecond => 1
  | Leap.delSecond => 2
  | Leap.notInSync => 3

/-- `Mode` enum of `src/ntp.rs` (association mode, 3 bits on the wire). -/
inductive Mode where
  | unspecified
  | active
  | passive
  | client
  | server
  | broadcast
deriving DecidableEq, Repr, Fintype

/-- `impl TryFrom<u8> for Mode` (`src/ntp.rs` lines 103-117): values 0-5 map
to the variants, anything else is an error with the source's message. -/
def Mode.try_from (value : Nat) : Except String Mode :=
  match value with
  | 0 => Except.ok Mode.unspecified
  | 1 => Except.ok Mode.active
  | 2 => Except.ok Mode.passive
  | 3 => Except.ok Mode.client
  | 4 => Except.ok Mode.server
  | 5 => Except.ok Mode.broadcast
  | _ => Except.error ("illegal mode value `" ++ toString value ++ "`")

/-- `impl From<Mode> for u8` (`src/ntp.rs` lines 119-130). -/
def Mode.to_u8 : Mode → Nat
  | Mode.unspecified => 0
  | Mode.active => 1
  | Mode.passive => 2
  | Mode.client => 3
  | Mode.server => 4
  | Mode.broadcast => 5

/-- `Poll(i8)` newtype of `src/ntp.rs` line 147. -/
structure Poll where
  val : Int
deriving DecidableEq, Repr

/-- `impl From<i8> for Poll` (`src/ntp.rs` lines 149-153): total, no
validation. -/
def Poll.from_i8 (value : Int) : Poll := ⟨value⟩

/-- `impl fmt::Display for Poll` (`src/ntp.rs` lines 155-163): values in
[6, 10] render as `2u16.pow(poll)` seconds (the u16 power is modelled with
its 2^16 wrap), anything else as `invalid (<raw>)`. -/
def Poll.display (p : Poll) : String :=
  if 6 ≤ p.val ∧ p.val ≤ 10 then
    toString ((2 ^ p.val.toNat) % 65536) ++ " seconds"
  else
    "invalid (" ++ toString p.val ++ ")"

/-- `Precision(i8)` newtype of `src/ntp.rs` line 166. -/
structure Precision where
  val : Int
deriving DecidableEq, Repr

/-- `impl From<i8> for Precision` (`src/ntp.rs` lines 168-172). -/
def Precision.from_i8 (value : Int) : Precision := ⟨value⟩

/-- `ShortTime(u16, u16)` of `src/ntp.rs` line 8: seconds and fraction. -/
structure ShortTime where
  secs : Nat
  frac : Nat
deriving DecidableEq, Repr

/-- `Timestamp(u32, u32)` of `src/ntp.rs` line 28: seconds and fraction
since the NTP epoch. -/
structure Timestamp where
  secs : Nat
  frac : Nat
deriving DecidableEq, Repr

/-- `Packet` struct of `src/ntp.rs` lines 181-193, the 48-byte NTP header.
`ref_id` is the `[u8; 4]` array, modelled as a 4-tuple of bytes. -/
structure Packet where
  lvm : Nat
  stratum : Nat
  poll : Poll
  precision : Precision
  root_delay : ShortTime
  root_dispersion : ShortTime
  ref_id : Nat × Nat × Nat × Nat
  reference_time : Timestamp
  origin_time : Timestamp
  receive_time : Timestamp
  transmit_time : Timestamp
deriving DecidableEq, Repr

/-- The ranges the Rust field types (`u8`, `i8`, `u16`, `u32`) guarantee. -/
def Packet.Wf (p : Packet) : Prop :=
  p.lvm < 256 ∧ p.stratum < 256 ∧
  -128 ≤ p.poll.val ∧ p.poll.val < 128 ∧
  -128 ≤ p.precision.val ∧ p.precision.val < 128 ∧
  p.root_delay.secs < 65536 ∧ p.root_delay.frac < 65536 ∧
  p.root_dispersion.secs < 65536 ∧ p.root_dispersion.frac < 65536 ∧
  p.ref_id.1 < 256 ∧ p.ref_id.2.1 < 256 ∧ p.ref_id.2.2.1 < 256 ∧ p.ref_id.2.2.2 < 256 ∧
  p.reference_time.secs < 4294967296 ∧ p.reference_time.frac < 4294967296 ∧
  p.origin_time.secs < 4294967296 ∧ p.origin_time.frac < 4294967296 ∧
  p.receive_time.secs < 4294967296 ∧ p.receive_time.frac < 4294967296 ∧
  p.transmit_time.secs < 4294967296 ∧ p.transmit_time.frac < 4294967296

instance (p : Packet) : Decidable p.Wf := by unfold Packet.Wf; infer_instance

/-! ### Byte-buffer primitives (the `bytes::Buf` / `bytes::BufMut` calls) -/

/-- `BufMut::put_u8`: append one byte. -/
def put_u8 (v : Nat) : List Nat := [v % 256]

/-- `BufMut::put_i8`: append the two's-complement byte of an i8. -/
def put_i8 (v : Int) : List Nat := [(v % 256).toNat]

/-- `BufMut::put_u16`: append two bytes, big-endian. -/
def put_u16 (v : Nat) : List Nat := [v / 256 % 256, v % 256]

/-- `BufMut::put_u32`: append four bytes, big-endian. -/
def put_u32 (v : Nat) : List Nat := put_u16 (v / 65536) ++ put_u16 v

/-- `Buf::get_u8`: read one byte, advancing the cursor.  On an exhausted
buffer the source panics; the model returns a junk byte there, and every
theorem below only invokes the reader with enough bytes available. -/
def get_u8 : List Nat → Nat × List Nat
  | [] => (0, [])
  | b :: rest => (b, rest)

/-- `Buf::get_i8`: read one byte as a two's-complement i8. -/
def get_i8 (buf : List Nat) : Int × List Nat :=
  let b := get_u8 buf
  (if b.1 < 128 then (b.1 : Int) else (b.1 : Int) - 256, b.2)

/-- `Buf::get_u16`: read two bytes, big-endian. -/
def get_u16 (buf : List Nat) : Nat × List Nat :=
  let hi := get_u8 buf
  let lo := get_u8 hi.2
  (hi.1 * 256 + lo.1, lo.2)

/-- `Buf::get_u32`: read four bytes, big-endian. -/
def get_u32 (buf : List Nat) : Nat × List Nat :=
  let hi := get_u16 buf
  let lo := get_u16 hi.2
  (hi.1 * 65536 + lo.1, lo.2)

/-- `ShortTime::from_buf` (`src/ntp.rs` lines 17-19). -/
def ShortTime.from_buf (buf : List Nat) : ShortTime × List Nat :=
  let s := get_u16 buf
  let f := get_u16 s.2
  (⟨s.1, f.1⟩, f.2)

/-- `ShortTime::to_buf` (`src/ntp.rs` lines 21-24). -/
def ShortTime.to_buf (t : ShortTime) : List Nat :=
  put_u16 t.secs ++ put_u16 t.frac

/-- `Timestamp::from_buf` (`src/ntp.rs` lines 38-40). -/
def Timestamp.from_buf (buf : List Nat) : Timestamp × List Nat :=
  let s := get_u32 buf
  let f := get_u32 s.2
  (⟨s.1, f.1⟩, f.2)

/-- `Timestamp::to_buf` (`src/ntp.rs` lines 42-45). -/
def Timestamp.to_buf (t : Timestamp) : List Nat :=
  put_u32 t.secs ++ put_u32 t.frac

/-- `buf.copy_to_slice(&mut ref_id)` with a 4-byte destination
(`src/ntp.rs` lines 211-212): read four raw bytes. -/
def get_ref_id (buf : List Nat) : (Nat × Nat × Nat × Nat) × List Nat :=
  let a := get_u8 buf
  let b := get_u8 a.2
  let c := get_u8 b.2
  let d := get_u8 c.2
  ((a.1, b.1, c.1, d.1), d.2)

/-- `buf.put_slice(&self.ref_id)` (`src/ntp.rs` line 236): write the four
raw bytes. -/
def put_ref_id (r : Nat × Nat × Nat × Nat) : List Nat :=
  [r.1 % 256, r.2.1 % 256, r.2.2.1 % 256, r.2.2.2 % 256]

/-- `Packet::new` (`src/ntp.rs` lines 196-202): pack
`(leap << 6) | (version << 3) | mode` (u8 shifts wrap at 2^8), set stratum
to 16, zero-fill every other field. -/
def Packet.new (leap : Leap) (version : Nat) (mode : Mode) : Packet where
  lvm := ((Leap.to_u8 leap <<< 6) % 256) ||| ((version <<< 3) % 256) ||| Mode.to_u8 mode
  stratum := 16
  poll := ⟨0⟩
  precision := ⟨0⟩
  root_delay := ⟨0, 0⟩
  root_dispersion := ⟨0, 0⟩
  ref_id := (0, 0, 0, 0)
  reference_time := ⟨0, 0⟩
  origin_time := ⟨0, 0⟩
  receive_time := ⟨0, 0⟩
  transmit_time := ⟨0, 0⟩

/-- `Packet::from_buf` (`src/ntp.rs` lines 204-227): read the eleven fields
in wire order through one advancing cursor; returns the packet and the
unread remainder of the buffer. -/
def Packet.from_buf (buf : List Nat) : Packet × List Nat :=
  let lvm := get_u8 buf
  let stratum := get_u8 lvm.2
  let poll := get_i8 stratum.2
  let precision := get_i8 poll.2
  let root_delay := ShortTime.from_buf precision.2
  let root_dispersion := ShortTime.from_buf root_delay.2
  let ref_id := get_ref_id root_dispersion.2
  let reference_time := Timestamp.from_buf ref_id.2
  let origin_time := Timestamp.from_buf reference_time.2
  let receive_time := Timestamp.from_buf origin_time.2
  let transmit_time := Timestamp.from_buf receive_time.2
  (⟨lvm.1, stratum.1, ⟨poll.1⟩, ⟨precision.1⟩, root_delay.1, root_dispersion.1,
    ref_id.1, reference_time.1, origin_time.1, receive_time.1, transmit_time.1⟩,
   transmit_time.2)

/-- `Packet::to_buf` (`src/ntp.rs` lines 229-241): write the eleven fields
in wire order. -/
def Packet.to_buf (p : Packet) : List Nat :=
  put_u8 p.lvm ++ put_u8 p.stratum ++ put_i8 p.poll.val ++ put_i8 p.precision.val ++
  p.root_delay.to_buf ++ p.root_dispersion.to_buf ++ put_ref_id p.ref_id ++
  p.reference_time.to_buf ++ p.origin_time.to_buf ++ p.receive_time.to_buf ++
  p.transmit_time.to_buf

/-- `Packet::leap_version_mode` (`src/ntp.rs` lines 243-249): unpack the
combined byte.  The source calls `.unwrap()` on both `try_from` results;
`none` models the panic taken when either conversion fails. -/
def Packet.leap_version_mode (p : Packet) : Option (Leap × Nat × Mode) :=
  match Leap.try_from (p.lvm >>> 6), Mode.try_from (p.lvm &&& 7) with
  | Except.ok l, Except.ok m => some (l, p.lvm >>> 3 &&& 7, m)
  | _, _ => none

/-! ### The query exchange (`src/main.rs`) -/

/-- The command-line arguments of `src/main.rs` lines 33-47 that affect the
modelled behaviour (`server` and the f64 `timeout` drive only I/O). -/
structure Args where
  version : Nat
deriving DecidableEq, Repr

/-- The version check of `async_main` (`src/main.rs` lines 51-53):
`!(1..=4).contains(&args.version)` aborts the run. -/
def version_ok (args : Args) : Bool :=
  1 ≤ args.version && args.version ≤ 4

/-- The request built by `access` (`src/main.rs` lines 91-96): the packet is
`Packet::new(Leap::NotInSync, 4, Mode::Client)` — the literal 4 from the
source, which does not reference `args.version` — serialized with `to_buf`. -/
def access_request (_args : Args) : List Nat :=
  Packet.to_buf (Packet.new Leap.notInSync 4 Mode.client)

/-- The version bits (bits 5-3) of an lvm byte. -/
def lvm_version_bits (b : Nat) : Nat := b >>> 3 &&& 7

/-- Errors of the exchange relevant here; `responseTooShort` models
`bail!("response too short")` at `src/main.rs` line 122. -/
inductive AccessError where
  | responseTooShort
deriving DecidableEq, Repr

/-- The receive-side tail of `access` (`src/main.rs` lines 121-126): if
fewer than 48 bytes were received, fail with `response too short` before
the decoder runs; otherwise decode the buffer. -/
def validate_response (bytes : List Nat) : Except AccessError Packet :=
  if bytes.length < 48 then Except.error AccessError.responseTooShort
  else Except.ok (Packet.from_buf bytes).1

/-- The per-address loop of `async_main` (`src/main.rs` lines 73-84): each
address's exchange result is handled independently (`if let Err(e) =
access(..) { println!("    {e}") }`), so a failure never stops the loop.
Each entry of `replies` is the byte buffer received for one address. -/
def process_addrs (replies : List (List Nat)) : List (Except AccessError Packet) :=
  replies.map validate_response

/-- The reference-id rendering of `access` (`src/main.rs` lines 129-140):
dotted decimal octets when `1 < stratum`, otherwise each byte as the
character of its code (`b as char`), concatenated. -/
def format_ref_id (stratum : Nat) (r : Nat × Nat × Nat × Nat) : String :=
  if 1 < stratum then
    toString r.1 ++ "." ++ toString r.2.1 ++ "." ++ toString r.2.2.1 ++ "." ++ toString r.2.2.2
  else
    String.mk [Char.ofNat r.1, Char.ofNat r.2.1, Char.ofNat r.2.2.1, Char.ofNat r.2.2.2]

deriving instance DecidableEq for Except

/-- A packet with a given lvm byte and every other field zeroed, used to
probe `leap_version_mode`, which reads only the lvm byte. -/
def lvm_packet (b : Nat) : Packet :=
  ⟨b, 0, ⟨0⟩, ⟨0⟩, ⟨0, 0⟩, ⟨0, 0⟩, (0, 0, 0, 0), ⟨0, 0⟩, ⟨0, 0⟩, ⟨0, 0⟩, ⟨0, 0⟩⟩

/-- A concrete well-formed packet exercising every field. -/
def samplePacket : Packet :=
  ⟨227, 2, ⟨8⟩, ⟨-20⟩, ⟨1, 32768⟩, ⟨0, 1234⟩, (192, 0, 2, 1),
   ⟨3913056000, 7⟩, ⟨1, 2⟩, ⟨3, 4⟩, ⟨5, 6⟩⟩

/-! ### Round-trip behaviour of the primitive readers on written bytes -/

theorem get_u8_rt (v : Nat) (rest : List Nat) :
    get_u8 (put_u8 v ++ rest) = (v % 256, rest) := rfl

theorem get_i8_rt (v : Int) (rest : List Nat) :
    get_i8 (put_i8 v ++ rest) = ((v + 128) % 256 - 128, rest) := by
  simp only [get_i8, put_i8, get_u8, List.singleton_append, Prod.mk.injEq, and_true]
  split_ifs <;> omega

theorem get_u16_rt (v : Nat) (rest : List Nat) :
    get_u16 (put_u16 v ++ rest) = (v % 65536, rest) := by
  simp only [get_u16, put_u16, get_u8, List.cons_append, List.nil_append, Prod.mk.injEq,
    and_true]
  omega

theorem get_u32_rt (v : Nat) (rest : List Nat) :
    get_u32 (put_u32 v ++ rest) = (v % 4294967296, rest) := by
  simp only [get_u32, put_u32, List.append_assoc, get_u16_rt, Prod.mk.injEq, and_true]
  omega

theorem shortTime_rt (t : ShortTime) (rest : List Nat) :
    ShortTime.from_buf (t.to_buf ++ rest) = (⟨t.secs % 65536, t.frac % 65536⟩, rest) := by
  simp [ShortTime.from_buf, ShortTime.to_buf, List.append_assoc, get_u16_rt]

theorem timestamp_rt (t : Timestamp) (rest : List Nat) :
    Timestamp.from_buf (t.to_buf ++ rest) =
      (⟨t.secs % 4294967296, t.frac % 4294967296⟩, rest) := by
  simp [Timestamp.from_buf, Timestamp.to_buf, List.append_assoc, get_u32_rt]

theorem get_ref_id_rt (r : Nat × Nat × Nat × Nat) (rest : List Nat) :
    get_ref_id (put_ref_id r ++ rest) =
      ((r.1 % 256, r.2.1 % 256, r.2.2.1 % 256, r.2.2.2 % 256), rest) := by
  simp [get_ref_id, put_ref_id, get_u8]

/-! ### Cursor discipline: each reader consumes exactly its width -/

theorem get_u8_snd (l : List Nat) : (get_u8 l).2 = l.drop 1 := by
  cases l <;> rfl

theorem get_i8_snd (l : List Nat) : (get_i8 l).2 = l.drop 1 := by
  simp [get_i8, get_u8_snd]

theorem get_u16_snd (l : List Nat) : (get_u16 l).2 = l.drop 2 := by
  simp [get_u16, get_u8_snd]

theorem get_u32_snd (l : List Nat) : (get_u32 l).2 = l.drop 4 := by
  simp [get_u32, get_u16_snd]

theorem shortTime_from_buf_snd (l : List Nat) : (ShortTime.from_buf l).2 = l.drop 4 := by
  simp [ShortTime.from_buf, get_u16_snd]

theorem timestamp_from_buf_snd (l : List Nat) : (Timestamp.from_buf l).2 = l.drop 8 := by
  simp [Timestamp.from_buf, get_u32_snd]

theorem get_ref_id_snd (l : List Nat) : (get_ref_id l).2 = l.drop 4 := by
  simp [get_ref_id, get_u8_snd]

/-- `Packet.from_buf` in cursor-free form: every field is read at its fixed
byte offset and the remainder is the buffer past offset 48. -/
theorem packet_from_buf_eq (l : List Nat) :
    Packet.from_buf l =
      (⟨(get_u8 l).1, (get_u8 (l.drop 1)).1, ⟨(get_i8 (l.drop 2)).1⟩, ⟨(get_i8 (l.drop 3)).1⟩,
        (ShortTime.from_buf (l.drop 4)).1, (ShortTime.from_buf (l.drop 8)).1,
        (get_ref_id (l.drop 12)).1, (Timestamp.from_buf (l.drop 16)).1,
        (Timestamp.from_buf (l.drop 24)).1, (Timestamp.from_buf (l.drop 32)).1,
        (Timestamp.from_buf (l.drop 40)).1⟩, l.drop 48) := by
  simp [Packet.from_buf, get_u8_snd, get_i8_snd, shortTime_from_buf_snd,
    timestamp_from_buf_snd, get_ref_id_snd]

/-! ### Each reader's value depends only on the bytes it consumes -/

theorem get_u8_fst_append (l₁ l₂ : List Nat) (h : 1 ≤ l₁.length) :
    (get_u8 (l₁ ++ l₂)).1 = (get_u8 l₁).1 := by
  cases l₁ with
  | nil => simp at h
  | cons b t => rfl

theorem get_i8_fst_append (l₁ l₂ : List Nat) (h : 1 ≤ l₁.length) :
    (get_i8 (l₁ ++ l₂)).1 = (get_i8 l₁).1 := by
  simp [get_i8, get_u8_fst_append l₁ l₂ h]

theorem get_u16_fst_append (l₁ l₂ : List Nat) (h : 2 ≤ l₁.length) :
    (get_u16 (l₁ ++ l₂)).1 = (get_u16 l₁).1 := by
  simp only [get_u16, get_u8_snd]
  rw [List.drop_append_of_le_length (by omega), get_u8_fst_append l₁ l₂ (by omega),
    get_u8_fst_append (l₁.drop 1) l₂ (by simp; omega)]

theorem get_u32_fst_append (l₁ l₂ : List Nat) (h : 4 ≤ l₁.length) :
    (get_u32 (l₁ ++ l₂)).1 = (get_u32 l₁).1 := by
  simp only [get_u32, get_u16_snd]
  rw [List.drop_append_of_le_length (by omega), get_u16_fst_append l₁ l₂ (by omega),
    get_u16_fst_append (l₁.drop 2) l₂ (by simp; omega)]

theorem shortTime_from_buf_fst_append (l₁ l₂ : List Nat) (h : 4 ≤ l₁.length) :
    (ShortTime.from_buf (l₁ ++ l₂)).1 = (ShortTime.from_buf l₁).1 := by
  simp only [ShortTime.from_buf, get_u16_snd]
  rw [List.drop_append_of_le_length (by omega), get_u16_fst_append l₁ l₂ (by omega),
    get_u16_fst_append (l₁.drop 2) l₂ (by simp; omega)]

theorem timestamp_from_buf_fst_append (l₁ l₂ : List Nat) (h : 8 ≤ l₁.length) :
    (Timestamp.from_buf (l₁ ++ l₂)).1 = (Timestamp.from_buf l₁).1 := by
  simp only [Timestamp.from_buf, get_u32_snd]
  rw [List.drop_append_of_le_length (by omega), get_u32_fst_append l₁ l₂ (by omega),
    get_u32_fst_append (l₁.drop 4) l₂ (by simp; omega)]

theorem get_ref_id_fst_append (l₁ l₂ : List Nat) (h : 4 ≤ l₁.length) :
    (get_ref_id (l₁ ++ l₂)).1 = (get_ref_id l₁).1 := by
  simp only [get_ref_id, get_u8_snd, List.drop_drop]
  rw [List.drop_append_of_le_length (show 1 ≤ l₁.length by omega),
    List.drop_append_of_le_length (show 1 + 1 ≤ l₁.length by omega),
    List.drop_append_of_le_length (show 1 + 1 + 1 ≤ l₁.length by omega),
    get_u8_fst_append l₁ l₂ (by omega),
    get_u8_fst_append (l₁.drop 1) l₂ (by simp; omega),
    get_u8_fst_append (l₁.drop (1 + 1)) l₂ (by simp; omega),
    get_u8_fst_append (l₁.drop (1 + 1 + 1)) l₂ (by simp; omega)]

/-- Decoding a buffer that extends a 48-byte prefix reads exactly that
prefix: the decoded packet is the one decoded from the prefix alone, and
the cursor is left exactly at the appended suffix. -/
theorem packet_from_buf_append (l₁ l₂ : List Nat) (h : 48 ≤ l₁.length) :
    Packet.from_buf (l₁ ++ l₂) = ((Packet.from_buf l₁).1, l₁.drop 48 ++ l₂) := by
  rw [packet_from_buf_eq (l₁ ++ l₂), packet_from_buf_eq l₁]
  rw [List.drop_append_of_le_length (show 1 ≤ l₁.length by omega),
    List.drop_append_of_le_length (show 2 ≤ l₁.length by omega),
    List.drop_append_of_le_length (show 3 ≤ l₁.length by omega),
    List.drop_append_of_le_length (show 4 ≤ l₁.length by omega),
    List.drop_append_of_le_length (show 8 ≤ l₁.length by omega),
    List.drop_append_of_le_length (show 12 ≤ l₁.length by omega),
    List.drop_append_of_le_length (show 16 ≤ l₁.length by omega),
    List.drop_append_of_le_length (show 24 ≤ l₁.length by omega),
    List.drop_append_of_le_length (show 32 ≤ l₁.length by omega),
    List.drop_append_of_le_length (show 40 ≤ l₁.length by omega),
    List.drop_append_of_le_length (show 48 ≤ l₁.length by omega)]
  rw [get_u8_fst_append l₁ l₂ (by omega),
    get_u8_fst_append (l₁.drop 1) l₂ (by simp; omega),
    get_i8_fst_append (l₁.drop 2) l₂ (by simp; omega),
    get_i8_fst_append (l₁.drop 3) l₂ (by simp; omega),
    shortTime_from_buf_fst_append (l₁.drop 4) l₂ (by simp; omega),
    shortTime_from_buf_fst_append (l₁.drop 8) l₂ (by simp; omega),
    get_ref_id_fst_append (l₁.drop 12) l₂ (by simp; omega),
    timestamp_from_buf_fst_append (l₁.drop 16) l₂ (by simp; omega),
    timestamp_from_buf_fst_append (l₁.drop 24) l₂ (by simp; omega),
    timestamp_from_buf_fst_append (l₁.drop 32) l₂ (by simp; omega),
    timestamp_from_buf_fst_append (l₁.drop 40) l₂ (by simp; omega)]

/-- Decoding right after encoding a well-formed packet returns the packet
and leaves the cursor exactly past its 48 bytes. -/
theorem packet_rt_aux (p : Packet) (h : p.Wf) (rest : List Nat) :
    Packet.from_buf (p.to_buf ++ rest) = (p, rest) := by
  obtain ⟨lvm, stratum, ⟨poll⟩, ⟨prec⟩, ⟨rds, rdf⟩, ⟨rqs, rqf⟩, ⟨r1, r2, r3, r4⟩,
    ⟨a1, a2⟩, ⟨b1, b2⟩, ⟨c1, c2⟩, ⟨d1, d2⟩⟩ := p
  simp only [Packet.Wf] at h
  obtain ⟨h1, h2, h3, h4, h5, h6, h7, h8, h9, h10, h11, h12, h13, h14, h15, h16,
    h17, h18, h19, h20, h21, h22⟩ := h
  simp only [Packet.to_buf, Packet.from_buf, List.append_assoc, get_u8_rt, get_i8_rt,
    shortTime_rt, timestamp_rt, get_ref_id_rt, Prod.mk.injEq, Packet.mk.injEq,
    Poll.mk.injEq, Precision.mk.injEq, ShortTime.mk.injEq, Timestamp.mk.injEq, and_true]
  omega

/-! ### Claim theorems -/

/-- C1: the claim says the query exchange places the user-supplied version
(valid per the CLI check for any value in [1,4]) into the version bits of
the serialized request.  Evaluating the code at user version 1: the CLI
check accepts it, yet `access` builds the request with the literal 4, so
the first byte of the request is 0xE3 whose version bits are 4, not 1 —
and the request bytes do not depend on the argument at all. -/
theorem c1_access_ignores_user_version :
    version_ok ⟨1⟩ = true ∧
    access_request ⟨1⟩ = access_request ⟨4⟩ ∧
    (access_request ⟨1⟩).head? = some 227 ∧
    lvm_version_bits 227 = 4 ∧ (4 : Nat) ≠ 1 := by decide

/-- C2 as stated is false: `leap_version_mode` is not infallible for every
lvm byte.  For lvm = 6 the 3-bit mode field is 6, `Mode::try_from`
rejects it, and the source's `.unwrap()` panics (modelled as `none`). -/
theorem c2_counterexample : (lvm_packet 6).leap_version_mode = none := by decide

set_option maxRecDepth 4000 in
/-- C2 amended: for every lvm byte, the 2-bit leap field always converts
successfully, but the unpack as a whole succeeds exactly when the 3-bit
mode field is at most 5; for mode bits 6 or 7 the Mode conversion reaches
its error branch and the `.unwrap()` panics. -/
theorem c2_unpack_partial (p : Packet) (hp : p.lvm < 256) :
    (Leap.try_from (p.lvm >>> 6)).isOk = true ∧
    (p.leap_version_mode.isSome = true ↔ p.lvm &&& 7 ≤ 5) := by
  have key : ∀ b, b < 256 → (Leap.try_from (b >>> 6)).isOk = true ∧
      ((lvm_packet b).leap_version_mode.isSome = true ↔ b &&& 7 ≤ 5) := by decide
  have hlv : p.leap_version_mode = (lvm_packet p.lvm).leap_version_mode := rfl
  rw [hlv]
  exact key p.lvm hp

theorem c2_unpack_partial_witness :
    (Leap.try_from ((lvm_packet 227).lvm >>> 6)).isOk = true ∧
    ((lvm_packet 227).leap_version_mode.isSome = true ↔ (lvm_packet 227).lvm &&& 7 ≤ 5) :=
  c2_unpack_partial (lvm_packet 227) (by decide)

/-- C3: decoding the bytes produced by encoding any packet (well-formed in
the sense that every field is within its Rust machine-integer range) yields
that packet field-for-field. -/
theorem c3_packet_roundtrip (p : Packet) (h : p.Wf) :
    (Packet.from_buf (Packet.to_buf p)).1 = p := by
  have := congrArg Prod.fst (packet_rt_aux p h [])
  simpa using this

theorem c3_packet_roundtrip_witness :
    samplePacket.Wf ∧ (Packet.from_buf (Packet.to_buf samplePacket)).1 = samplePacket :=
  ⟨by decide, c3_packet_roundtrip samplePacket (by decide)⟩

/-- C4: encoding any packet produces exactly 48 bytes, and decoding a
buffer whose first 48 bytes form the packet consumes exactly those 48
bytes: the decoded value equals the one decoded from the 48-byte prefix
alone and the bytes beyond the span are left untouched as the remainder. -/
theorem c4_codec_span_48 :
    (∀ p : Packet, (Packet.to_buf p).length = 48) ∧
    (∀ l₁ l₂ : List Nat, l₁.length = 48 →
      Packet.from_buf (l₁ ++ l₂) = ((Packet.from_buf l₁).1, l₂)) := by
  constructor
  · intro p
    simp [Packet.to_buf, ShortTime.to_buf, Timestamp.to_buf, put_u8, put_i8, put_u16,
      put_u32, put_ref_id]
  · intro l₁ l₂ h
    rw [packet_from_buf_append l₁ l₂ (by omega)]
    simp [List.drop_eq_nil_iff.mpr (show l₁.length ≤ 48 by omega)]

theorem c4_codec_span_48_witness :
    (Packet.to_buf samplePacket).length = 48 ∧
    Packet.from_buf (List.replicate 48 0 ++ [9]) =
      ((Packet.from_buf (List.replicate 48 0)).1, [9]) :=
  ⟨c4_codec_span_48.1 samplePacket,
   c4_codec_span_48.2 (List.replicate 48 0) [9] (by decide)⟩

set_option maxRecDepth 8000 in
/-- C5: `Packet::new` packs `(leap << 6) | (version << 3) | mode` (with the
u8 wrap of the shifts) into lvm, sets stratum to 16 and zero-fills every
other field; in particular `new(NotInSync, 4, Client)` has lvm 0xE3 = 227
and stratum 16 with all other fields zero. -/
theorem c5_packet_new_fields :
    (∀ (l : Leap) (m : Mode) (v : Nat), v < 256 →
      Packet.new l v m =
        ⟨((Leap.to_u8 l <<< 6) ||| (v <<< 3) ||| Mode.to_u8 m) % 256, 16, ⟨0⟩, ⟨0⟩,
         ⟨0, 0⟩, ⟨0, 0⟩, (0, 0, 0, 0), ⟨0, 0⟩, ⟨0, 0⟩, ⟨0, 0⟩, ⟨0, 0⟩⟩) ∧
    Packet.new Leap.notInSync 4 Mode.client =
      ⟨227, 16, ⟨0⟩, ⟨0⟩, ⟨0, 0⟩, ⟨0, 0⟩, (0, 0, 0, 0), ⟨0, 0⟩, ⟨0, 0⟩, ⟨0, 0⟩, ⟨0, 0⟩⟩ := by
  constructor
  · decide
  · decide

theorem c5_packet_new_fields_witness :
    Packet.new Leap.notInSync 4 Mode.client =
      ⟨((Leap.to_u8 Leap.notInSync <<< 6) ||| ((4 : Nat) <<< 3) ||| Mode.to_u8 Mode.client) % 256,
       16, ⟨0⟩, ⟨0⟩, ⟨0, 0⟩, ⟨0, 0⟩, (0, 0, 0, 0), ⟨0, 0⟩, ⟨0, 0⟩, ⟨0, 0⟩, ⟨0, 0⟩⟩ :=
  c5_packet_new_fields.1 Leap.notInSync Mode.client 4 (by decide)

set_option maxRecDepth 8000 in
/-- C6: `Leap`/`Mode` decoding succeeds for every in-range byte (0-3
resp. 0-5) and the inverse encoding recovers the byte; it fails with the
source's error message for every out-of-range byte. -/
theorem c6_enum_codec : ∀ v : Nat, v < 256 →
    (v ≤ 3 → ∃ l, Leap.try_from v = Except.ok l ∧ Leap.to_u8 l = v) ∧
    (3 < v → Leap.try_from v =
      Except.error ("illegal leap indicator value `" ++ toString v ++ "`")) ∧
    (v ≤ 5 → ∃ m, Mode.try_from v = Except.ok m ∧ Mode.to_u8 m = v) ∧
    (5 < v → Mode.try_from v =
      Except.error ("illegal mode value `" ++ toString v ++ "`")) := by decide

theorem c6_enum_codec_witness :
    ((2 : Nat) ≤ 3 → ∃ l, Leap.try_from 2 = Except.ok l ∧ Leap.to_u8 l = 2) ∧
    ((3 : Nat) < 2 → Leap.try_from 2 =
      Except.error ("illegal leap indicator value `" ++ toString (2 : Nat) ++ "`")) ∧
    ((2 : Nat) ≤ 5 → ∃ m, Mode.try_from 2 = Except.ok m ∧ Mode.to_u8 m = 2) ∧
    ((5 : Nat) < 2 → Mode.try_from 2 =
      Except.error ("illegal mode value `" ++ toString (2 : Nat) ++ "`")) :=
  c6_enum_codec 2 (by decide)

/-- C7: `Poll` display renders values in [6,10] as `2^poll seconds`
(value 8 gives "256 seconds"), renders every other value as an invalid
indication carrying the raw value (3 and 11 included), and the i8-to-Poll
decode is total, never failing for any value. -/
theorem c7_poll_display :
    (∀ v : Int, 6 ≤ v → v ≤ 10 →
      Poll.display ⟨v⟩ = toString ((2 : Nat) ^ v.toNat) ++ " seconds") ∧
    (∀ v : Int, ¬(6 ≤ v ∧ v ≤ 10) →
      Poll.display ⟨v⟩ = "invalid (" ++ toString v ++ ")") ∧
    Poll.display ⟨8⟩ = "256 seconds" ∧
    Poll.display ⟨3⟩ = "invalid (3)" ∧
    Poll.display ⟨11⟩ = "invalid (11)" ∧
    (∀ v : Int, (Poll.from_i8 v).val = v) := by
  refine ⟨?_, ?_, by decide, by decide, by decide, fun v => rfl⟩
  · intro v h6 h10
    have hv : v.toNat ≤ 10 := by omega
    have hpow : (2 : Nat) ^ v.toNat % 65536 = 2 ^ v.toNat :=
      Nat.mod_eq_of_lt (lt_of_le_of_lt
        (Nat.pow_le_pow_right (by norm_num) hv) (by norm_num))
    simp [Poll.display, h6, h10, hpow]
  · intro v h
    simp only [Poll.display, if_neg h]

theorem c7_poll_display_witness :
    Poll.display ⟨7⟩ = toString ((2 : Nat) ^ (7 : Int).toNat) ++ " seconds" :=
  c7_poll_display.1 7 (by decide) (by decide)

/-- C8: the reference-id rendering is dotted decimal octets when
stratum > 1 and byte-wise characters when stratum ≤ 1, with no
printability validation; concretely stratum 2 with [192,0,2,1] gives
"192.0.2.1" and stratum 1 with [76,79,67,76] gives "LOCL". -/
theorem c8_ref_id_rendering :
    (∀ (s : Nat) (r : Nat × Nat × Nat × Nat), 1 < s →
      format_ref_id s r = toString r.1 ++ "." ++ toString r.2.1 ++ "." ++
        toString r.2.2.1 ++ "." ++ toString r.2.2.2) ∧
    (∀ (s : Nat) (r : Nat × Nat × Nat × Nat), s ≤ 1 →
      format_ref_id s r =
        String.mk [Char.ofNat r.1, Char.ofNat r.2.1, Char.ofNat r.2.2.1, Char.ofNat r.2.2.2]) ∧
    format_ref_id 2 (192, 0, 2, 1) = "192.0.2.1" ∧
    format_ref_id 1 (76, 79, 67, 76) = "LOCL" := by
  refine ⟨?_, ?_, by decide, by decide⟩
  · intro s r h
    simp only [format_ref_id, if_pos h]
  · intro s r h
    simp only [format_ref_id, if_neg (show ¬1 < s by omega)]

theorem c8_ref_id_rendering_witness :
    format_ref_id 3 (10, 0, 0, 7) = toString (10, 0, 0, 7).1 ++ "." ++
      toString (10, 0, 0, 7).2.1 ++ "." ++ toString (10, 0, 0, 7).2.2.1 ++ "." ++
      toString (10, 0, 0, 7).2.2.2 :=
  c8_ref_id_rendering.1 3 (10, 0, 0, 7) (by decide)

/-- C9: a reply of fewer than 48 bytes makes the exchange fail with
`ResponseTooShort` — the result is that error regardless of the buffer's
content, so the packet decoder never contributes — and the per-address
loop handles each address's result independently, producing one outcome
per address no matter how many fail. -/
theorem c9_short_response :
    (∀ bytes : List Nat, bytes.length < 48 →
      validate_response bytes = Except.error AccessError.responseTooShort) ∧
    (∀ replies : List (List Nat), (process_addrs replies).length = replies.length) := by
  constructor
  · intro bytes h
    simp [validate_response, h]
  · intro replies
    simp [process_addrs]

theorem c9_short_response_witness :
    validate_response [1, 2, 3] = Except.error AccessError.responseTooShort :=
  c9_short_response.1 [1, 2, 3] (by decide)

/-- C10: unpacking a packet built by `Packet::new` returns its three
arguments exactly when the version fits in its 3 bits (v ≤ 7); for
v in [8,15] the shifted version bits overflow into the leap bits (the
unpacked leap field differs from the argument) and the round trip fails. -/
theorem c10_new_unpack_roundtrip :
    (∀ (l : Leap) (m : Mode) (v : Nat), v < 8 →
      (Packet.new l v m).leap_version_mode = some (l, v, m)) ∧
    (∀ v : Nat, v < 16 → 8 ≤ v →
      (Packet.new Leap.noWarning v Mode.client).lvm >>> 6 ≠ Leap.to_u8 Leap.noWarning) ∧
    (∀ v : Nat, v < 16 → 8 ≤ v →
      (Packet.new Leap.noWarning v Mode.client).leap_version_mode ≠
        some (Leap.noWarning, v, Mode.client)) := by
  refine ⟨by decide, by decide, by decide⟩

theorem c10_new_unpack_roundtrip_witness :
    (Packet.new Leap.notInSync 4 Mode.client).leap_version_mode =
      some (Leap.notInSync, 4, Mode.client) :=
  c10_new_unpack_roundtrip.1 Leap.notInSync Mode.client 4 (by decide)

end Ntpdate
